import Mathlib

/-!
Shallow embedding of the three workload simulators of this repository:
the context-aware connectivity policy engine
(src/intelligent_connectivity_prototype.cpp, class IntelligentConnectivitySim),
the keyword-spotting voice pipeline (class VoiceRecognitionSim), and the
multi-factor biometric authenticator (class BiometricSecuritySim).

The console menu loop, wall-clock timing and pseudo-random draws are glue;
the decision logic is embedded as pure Lean functions.  The random outcomes
of the synthetic voice and PIN checks are passed in as explicit booleans.
C++ float arithmetic is idealized as exact rational arithmetic over Lean's
`Rat`; machine-integer data limits fit comfortably in `Int`.
`std::map` tables are modelled as association lists, with the
`operator[]` read-or-insert semantics made explicit (`mapGetInsert`) so that
the non-mutation claims can be stated.
-/

/-! ## Connectivity simulator: data model -/

/-- The fields of `NetworkPolicy` in intelligent_connectivity_prototype.cpp. -/
structure NetworkPolicy where
  securityLevel : String
  requirePIN : Bool
  dataLimit : Int
  connectionType : String
deriving DecidableEq

/-- A value-initialized `NetworkPolicy`, as produced by `std::map::operator[]`
for an absent key (empty strings, false, 0). -/
instance : Inhabited NetworkPolicy where
  default := ⟨"", false, 0, ""⟩

/-- The trusted device identifiers installed by `initializeTrustedDevices`. -/
def trustedDevices : List String :=
  ["home_wifi", "office_bt", "car_system", "personal_tablet"]

/-- The policy table populated by `initializePolicies`. -/
def initialPolicyRules : List (String × NetworkPolicy) :=
  [("home_trusted", ⟨"LOW", false, 1000, "FULL_ACCESS"⟩),
   ("public_trusted", ⟨"MEDIUM", true, 500, "LIMITED_ACCESS"⟩),
   ("untrusted", ⟨"HIGH", true, 100, "RESTRICTED"⟩),
   ("emergency", ⟨"CRITICAL", true, 50, "EMERGENCY_ONLY"⟩)]

/-- Model of `std::map::operator[]` on a string-keyed table: when the key is present,
return its mapped value and leave the table alone; when it is absent, insert a
value-initialized entry and return that default.  (The position of the new
entry inside the association list is immaterial to every property proved
below, so insertion is modelled as an append.) -/
def mapGetInsert {α : Type} [Inhabited α] (table : List (String × α)) (key : String) :
    α × List (String × α) :=
  match table.find? (fun kv => kv.1 == key) with
  | some kv => (kv.2, table)
  | none => (default, table ++ [(key, default)])

/-- The double loop at the top of `evaluateTrustLevel`: each nearby device
adds one to the count when it equals some member of `trustedDevices` (the
inner `break` makes each list entry count at most once). -/
def countTrusted (devices : List String) : Nat :=
  devices.countP (fun device => trustedDevices.any (fun trusted => device == trusted))

/-- Function `evaluateTrustLevel` from intelligent_connectivity_prototype.cpp. -/
def evaluateTrustLevel (devices : List String) (location : String) : String :=
  let trustedCount := countTrusted devices
  if location = "Home" ∧ 2 ≤ trustedCount then "home_trusted"
  else if location = "Office" ∧ 1 ≤ trustedCount then "public_trusted"
  else if 1 ≤ trustedCount then "public_trusted"
  else if location = "Rural Area" then "emergency"
  else "untrusted"

/-- The decision chain of `evaluateTrustLevel` exactly as the spec words it,
as a function of an already-computed trusted count. -/
def trustDecisionSpec (trustedCount : Nat) (location : String) : String :=
  if location = "Home" ∧ 2 ≤ trustedCount then "home_trusted"
  else if location = "Office" ∧ 1 ≤ trustedCount then "public_trusted"
  else if 1 ≤ trustedCount then "public_trusted"
  else if location = "Rural Area" then "emergency"
  else "untrusted"

/-- The spec's "intersection size between `devices` and the trusted-device
set": the number of members of `trustedDevices` that occur in `devices`. -/
def intersectionCount (devices : List String) : Nat :=
  (trustedDevices.filter (fun trusted => decide (trusted ∈ devices))).length

/-- Function `evaluateTrustLevel` as claim C1 words it, with the trusted count taken to
be the intersection size. -/
def evaluateTrustLevelSpec (devices : List String) (location : String) : String :=
  trustDecisionSpec (intersectionCount devices) location

/-- The `policyRules[trustLevel]` lookup performed by `applyPolicy`, with the
table state threaded explicitly. -/
def applyPolicyState (table : List (String × NetworkPolicy)) (trustLevel : String) :
    NetworkPolicy × List (String × NetworkPolicy) :=
  mapGetInsert table trustLevel

/-- Function `applyPolicy` from intelligent_connectivity_prototype.cpp: a lookup in the
startup policy table.  The `location` argument is accepted and ignored, as in
the source. -/
def applyPolicy (trustLevel location : String) : NetworkPolicy :=
  (applyPolicyState initialPolicyRules trustLevel).1

/-- Whether `needle` occurs at the head of the character list. -/
def beginsWith : List Char → List Char → Bool
  | [], _ => true
  | _ :: _, [] => false
  | a :: as, b :: bs => a == b && beginsWith as bs

/-- Whether `needle` occurs contiguously anywhere in the character list:
the model of `std::string::find(needle) != npos`. -/
def hasSubstr (needle : List Char) : List Char → Bool
  | [] => beginsWith needle []
  | c :: rest => beginsWith needle (c :: rest) || hasSubstr needle rest

/-- Model of `s.find(pat) != std::string::npos` on strings. -/
def containsSubstr (s pat : String) : Bool :=
  hasSubstr pat.toList s.toList

/-- The per-network branch of `makeConnectivityDecisions`: the label printed
for one network under one policy. -/
def classifyNetwork (policy : NetworkPolicy) (network : String) : String :=
  if policy.securityLevel = "LOW" then "FULL"
  else if policy.securityLevel = "MEDIUM" then
    if containsSubstr network "Secure" || containsSubstr network "Office" then "LIMITED"
    else "AVOID"
  else if policy.securityLevel = "HIGH" then
    if network = "Cellular_Data" then "RESTRICTED" else "BLOCKED"
  else
    if network = "Cellular_Data" then "EMERGENCY" else "BLOCKED"

/-- Function `makeConnectivityDecisions` from intelligent_connectivity_prototype.cpp:
the list of classification labels, one per network, in order. -/
def makeConnectivityDecisions (networks : List String) (policy : NetworkPolicy) : List String :=
  networks.map (fun network => classifyNetwork policy network)

/-! ## Biometric simulator: data model -/

/-- The fields of `UserProfile` in the biometric security simulator. -/
structure UserProfile where
  voicePrintHash : String
  pin : String
  trustedDevices : List String
deriving DecidableEq

/-- A value-initialized `UserProfile`, as produced by `std::map::operator[]`
for an absent key. -/
instance : Inhabited UserProfile where
  default := ⟨"", "", []⟩

/-- The user database populated by `initializeUserDatabase`. -/
def initialUserDatabase : List (String × UserProfile) :=
  [("thabo", ⟨"voice_hash_1234", "5678", ["home_bt", "car_bt"]⟩),
   ("matseliso", ⟨"voice_hash_5678", "1234", ["office_wifi"]⟩),
   ("ntate_john", ⟨"voice_hash_9012", "4321", ["home_bt", "personal_device"]⟩)]

/-- The device list installed by `scanNearbyDevices`. -/
def scannedNearbyDevices : List String :=
  ["home_bt", "unknown_device", "office_wifi", "car_bt"]

/-- Function `isTrustedEnvironment`: some trusted device of the profile equals some
currently nearby device (double loop with early return). -/
def isTrustedEnvironment (profile : UserProfile) (nearbyDevices : List String) : Bool :=
  profile.trustedDevices.any (fun trustedDevice =>
    nearbyDevices.any (fun nearbyDevice => trustedDevice == nearbyDevice))

/-- The outcome fields printed by `authenticateUser` for a found profile. -/
structure AuthResult where
  authenticated : Bool
  authMethod : String
  contextInfo : String
deriving DecidableEq

/-- One `authenticateUser` call, instrumented: the reported outcome (`none`
models the printed "not found" message) together with whether the voice
check (`authenticateVoice`) and the PIN check (`verifyPIN`) were invoked. -/
structure AuthTrace where
  result : Option AuthResult
  voiceChecked : Bool
  pinChecked : Bool
deriving DecidableEq

/-- Function `authenticateUser` from the biometric simulator, with the database state
threaded explicitly.  `voiceOutcome` and `pinOutcome` are the random draws
that `authenticateVoice` and `verifyPIN` would return.  The guard uses
`find?` (the `userDatabase.find(userId) == end()` check); on the success path
the profile is re-fetched through `operator[]` exactly as in the source. -/
def authenticateUserState (db : List (String × UserProfile)) (nearby : List String)
    (voiceOutcome pinOutcome : Bool) (userId : String) :
    AuthTrace × List (String × UserProfile) :=
  match db.find? (fun kv => kv.1 == userId) with
  | none => (⟨none, false, false⟩, db)
  | some _ =>
    let fetched := mapGetInsert db userId
    let profile := fetched.1
    let voiceAuth := voiceOutcome
    let trustedEnvironment := isTrustedEnvironment profile nearby
    if voiceAuth && trustedEnvironment then
      (⟨some ⟨true, "Voice", " (Trusted Environment)"⟩, true, false⟩, fetched.2)
    else if voiceAuth then
      (⟨some ⟨true, "Voice", ""⟩, true, false⟩, fetched.2)
    else
      (⟨some ⟨pinOutcome, "PIN", ""⟩, true, true⟩, fetched.2)

/-- The outcome of one `authenticateUser` call. -/
def authenticateUser (db : List (String × UserProfile)) (nearby : List String)
    (voiceOutcome pinOutcome : Bool) (userId : String) : AuthTrace :=
  (authenticateUserState db nearby voiceOutcome pinOutcome userId).1

/-- The `userDatabase.find(userId)` lookup, as an `Option`al profile. -/
def lookupUser (db : List (String × UserProfile)) (userId : String) : Option UserProfile :=
  (db.find? (fun kv => kv.1 == userId)).map (fun kv => kv.2)

/-! ## Voice recognition simulator: data model -/

/-- The accumulation loop of `computeSimilarity`: sum of products over paired
positions, stopping at the shorter length. -/
def dotProduct : List ℚ → List ℚ → ℚ
  | a :: as, b :: bs => a * b + dotProduct as bs
  | _, _ => 0

/-- The divisor `std::min(a.size(), b.size())` of `computeSimilarity`. -/
def simDivisor (a b : List ℚ) : Nat :=
  min a.length b.length

/-- Function `computeSimilarity` from the voice recognition simulator:
`std::abs(similarity) / std::min(a.size(), b.size())`. -/
def computeSimilarity (a b : List ℚ) : ℚ :=
  |dotProduct a b| / (simDivisor a b : ℚ)

/-- The detection threshold `RESPONSE_THRESHOLD = 0.85f`. -/
def RESPONSE_THRESHOLD : ℚ :=
  85 / 100

/-- The three keyword models built by `initializeKeywordModels`: model `i`
(zero-based) is 256 copies of `0.1 * (i + 1)`. -/
def keywordModels : List (List ℚ) :=
  [List.replicate 256 (1 / 10),
   List.replicate 256 (2 / 10),
   List.replicate 256 (3 / 10)]

/-- The loop of `matchKeywords`: scan the models in order, returning `true`
at the first one whose similarity to the features exceeds the threshold. -/
def matchKeywordsAux (features : List ℚ) : List (List ℚ) → Bool
  | [] => false
  | model :: rest =>
    if RESPONSE_THRESHOLD < computeSimilarity features model then true
    else matchKeywordsAux features rest

/-- Function `matchKeywords` from the voice recognition simulator. -/
def matchKeywords (features : List ℚ) : Bool :=
  matchKeywordsAux features keywordModels

/-! ## Helper lemmas -/

/-- The inner loop of `evaluateTrustLevel` tests exactly membership in the
trusted set. -/
theorem countTrusted_eq_countP (devices : List String) :
    countTrusted devices = devices.countP (fun d => decide (d ∈ trustedDevices)) := by
  unfold countTrusted
  apply List.countP_congr
  intro d _
  simp [List.any_eq_true]

/-- Counting the members of `a` that lie in `b` agrees with counting the
members of `b` that lie in `a`, whenever both lists are duplicate-free. -/
theorem length_filter_mem_comm {α : Type} [DecidableEq α] (a b : List α)
    (ha : a.Nodup) (hb : b.Nodup) :
    (a.filter (fun x => decide (x ∈ b))).length
      = (b.filter (fun x => decide (x ∈ a))).length := by
  have na := ha.filter (fun x => decide (x ∈ b))
  have nb := hb.filter (fun x => decide (x ∈ a))
  rw [← List.toFinset_card_of_nodup na, ← List.toFinset_card_of_nodup nb]
  congr 1
  ext x
  simp [List.mem_filter, and_comm]

/-- On duplicate-free device lists the per-occurrence trusted count is the
intersection size. -/
theorem countTrusted_eq_intersectionCount (devices : List String) (h : devices.Nodup) :
    countTrusted devices = intersectionCount devices := by
  rw [countTrusted_eq_countP, List.countP_eq_length_filter]
  unfold intersectionCount
  exact length_filter_mem_comm devices trustedDevices h (by decide)

/-! ## Claim C1 -/

/-- Claim C1 (amended): `evaluateTrustLevel` counts the entries of the nearby
device list that equal a member of the static trusted-device set, counting
duplicates once per occurrence, and feeds that count into the stated
first-match-wins decision chain; on duplicate-free device lists this count is
exactly the intersection size, so the claimed intersection-based description
holds there; and devices = {home_wifi, car_system} at location Home yields
home_trusted. -/
theorem evaluateTrustLevel_spec (devices : List String) (location : String) :
    evaluateTrustLevel devices location
      = trustDecisionSpec (devices.countP (fun d => decide (d ∈ trustedDevices))) location
    ∧ (devices.Nodup →
        evaluateTrustLevel devices location = evaluateTrustLevelSpec devices location)
    ∧ evaluateTrustLevel ["home_wifi", "car_system"] "Home" = "home_trusted" := by
  refine ⟨?_, ?_, by decide⟩
  · rw [← countTrusted_eq_countP]
    rfl
  · intro h
    unfold evaluateTrustLevelSpec
    rw [← countTrusted_eq_intersectionCount devices h]
    rfl

/-- Claim C1 counterexample: on a device list with a duplicated trusted
device, the code counts the duplicate twice while the claimed intersection
size is one, and at location Home the two disagree: the code returns
home_trusted where the intersection-based description returns
public_trusted. -/
theorem evaluateTrustLevel_duplicate_counterexample :
    evaluateTrustLevel ["home_wifi", "home_wifi"] "Home" = "home_trusted"
    ∧ evaluateTrustLevelSpec ["home_wifi", "home_wifi"] "Home" = "public_trusted"
    ∧ ("home_trusted" : String) ≠ "public_trusted" :=
  ⟨by decide, by decide, by decide⟩

/-- Witness for the amended claim C1 at the duplicate-free device list
{home_wifi, car_system}. -/
theorem evaluateTrustLevel_spec_witness :
    evaluateTrustLevel ["home_wifi", "car_system"] "Home"
      = evaluateTrustLevelSpec ["home_wifi", "car_system"] "Home" :=
  (evaluateTrustLevel_spec ["home_wifi", "car_system"] "Home").2.1 (by decide)

/-! ## Claim C2 -/

/-- Claim C2: `makeConnectivityDecisions` classifies each network solely by
the policy's security level: LOW classifies every network FULL; MEDIUM
classifies exactly the networks containing the substring Secure or Office as
LIMITED and all others AVOID; HIGH classifies exactly the literal
Cellular_Data as RESTRICTED and all others BLOCKED; CRITICAL classifies
exactly Cellular_Data as EMERGENCY and all others BLOCKED. -/
theorem makeConnectivityDecisions_spec (networks : List String) (policy : NetworkPolicy) :
    makeConnectivityDecisions networks policy
      = networks.map (fun network => classifyNetwork policy network)
    ∧ (policy.securityLevel = "LOW" →
        makeConnectivityDecisions networks policy = List.replicate networks.length "FULL")
    ∧ (policy.securityLevel = "MEDIUM" → ∀ network ∈ networks,
        (classifyNetwork policy network = "LIMITED"
          ↔ (containsSubstr network "Secure" = true ∨ containsSubstr network "Office" = true))
        ∧ (classifyNetwork policy network = "AVOID"
          ↔ ¬(containsSubstr network "Secure" = true ∨ containsSubstr network "Office" = true)))
    ∧ (policy.securityLevel = "HIGH" → ∀ network ∈ networks,
        (classifyNetwork policy network = "RESTRICTED" ↔ network = "Cellular_Data")
        ∧ (classifyNetwork policy network = "BLOCKED" ↔ network ≠ "Cellular_Data"))
    ∧ (policy.securityLevel = "CRITICAL" → ∀ network ∈ networks,
        (classifyNetwork policy network = "EMERGENCY" ↔ network = "Cellular_Data")
        ∧ (classifyNetwork policy network = "BLOCKED" ↔ network ≠ "Cellular_Data")) := by
  refine ⟨rfl, ?_, ?_, ?_, ?_⟩
  · intro hlow
    refine List.eq_replicate_iff.mpr ⟨by simp [makeConnectivityDecisions], ?_⟩
    intro b hb
    simp only [makeConnectivityDecisions, List.mem_map] at hb
    obtain ⟨n, _, rfl⟩ := hb
    simp [classifyNetwork, hlow]
  · intro hmed network _
    constructor
    · by_cases h : containsSubstr network "Secure" = true ∨ containsSubstr network "Office" = true
      · simp [classifyNetwork, hmed, h]
      · simp [classifyNetwork, hmed, h]
    · by_cases h : containsSubstr network "Secure" = true ∨ containsSubstr network "Office" = true
      · simp [classifyNetwork, hmed, h]
      · simp [classifyNetwork, hmed, h]
  · intro hhigh network _
    constructor
    · by_cases h : network = "Cellular_Data"
      · simp [classifyNetwork, hhigh, h]
      · simp [classifyNetwork, hhigh, h]
    · by_cases h : network = "Cellular_Data"
      · simp [classifyNetwork, hhigh, h]
      · simp [classifyNetwork, hhigh, h]
  · intro hcrit network _
    constructor
    · by_cases h : network = "Cellular_Data"
      · simp [classifyNetwork, hcrit, h]
      · simp [classifyNetwork, hcrit, h]
    · by_cases h : network = "Cellular_Data"
      · simp [classifyNetwork, hcrit, h]
      · simp [classifyNetwork, hcrit, h]

/-- Witness for claim C2 at a HIGH policy on the airport network list. -/
theorem makeConnectivityDecisions_spec_witness :
    (classifyNetwork ⟨"HIGH", true, 100, "RESTRICTED"⟩ "Cellular_Data" = "RESTRICTED"
      ↔ ("Cellular_Data" : String) = "Cellular_Data")
    ∧ (classifyNetwork ⟨"HIGH", true, 100, "RESTRICTED"⟩ "Cellular_Data" = "BLOCKED"
      ↔ ("Cellular_Data" : String) ≠ "Cellular_Data") :=
  (makeConnectivityDecisions_spec ["Airport_Free", "Cellular_Data"]
      ⟨"HIGH", true, 100, "RESTRICTED"⟩).2.2.2.1 rfl "Cellular_Data" (by simp)

/-! ## Claim C3 -/

/-- Claim C3: `applyPolicy` returns exactly the fixed fields of the
initialization table for each of the four trust tiers, and re-invoking it
with the same tier name (at any locations) yields identical output fields. -/
theorem applyPolicy_table (location location2 : String) :
    applyPolicy "home_trusted" location = ⟨"LOW", false, 1000, "FULL_ACCESS"⟩
    ∧ applyPolicy "public_trusted" location = ⟨"MEDIUM", true, 500, "LIMITED_ACCESS"⟩
    ∧ applyPolicy "untrusted" location = ⟨"HIGH", true, 100, "RESTRICTED"⟩
    ∧ applyPolicy "emergency" location = ⟨"CRITICAL", true, 50, "EMERGENCY_ONLY"⟩
    ∧ (∀ tier, applyPolicy tier location = applyPolicy tier location2) :=
  ⟨rfl, rfl, rfl, rfl, fun _ => rfl⟩

/-! ## Claim C9 -/

/-- The result of `evaluateTrustLevel` is always one of the four tier
names. -/
theorem evaluateTrustLevel_mem (devices : List String) (location : String) :
    evaluateTrustLevel devices location
      ∈ ["home_trusted", "public_trusted", "untrusted", "emergency"] := by
  simp only [evaluateTrustLevel]
  split_ifs <;> decide

/-- Claim C9: `evaluateTrustLevel` returns one of exactly the four tier names
installed in the policy table by `initializePolicies`, so the lookup inside
`applyPolicy` always finds an existing entry. -/
theorem evaluateTrustLevel_range (devices : List String) (location : String) :
    evaluateTrustLevel devices location
      ∈ ["home_trusted", "public_trusted", "untrusted", "emergency"]
    ∧ evaluateTrustLevel devices location ∈ initialPolicyRules.map Prod.fst
    ∧ ∃ kv, initialPolicyRules.find?
        (fun kv => kv.1 == evaluateTrustLevel devices location) = some kv := by
  have h := evaluateTrustLevel_mem devices location
  simp only [List.mem_cons, List.not_mem_nil, or_false] at h
  rcases h with h | h | h | h <;> rw [h] <;>
    exact ⟨by decide, by decide, ⟨_, rfl⟩⟩

/-! ## Claim C8 -/

/-- Claim C8: no table is mutated after construction.  The policy table and
user database after any evaluator operation that touches them through
`operator[]` are exactly the startup tables: `applyPolicy` applied to any
tier produced by `evaluateTrustLevel` leaves the policy table unchanged, and
`authenticateUser` leaves the user database unchanged for every user
identifier (present or absent).  The trusted-device set and keyword models
are read-only constants of the embedding and the remaining evaluators are
pure functions of their inputs. -/
theorem tables_unchanged :
    (∀ devices location,
      (applyPolicyState initialPolicyRules (evaluateTrustLevel devices location)).2
        = initialPolicyRules)
    ∧ (∀ db nearby voiceOutcome pinOutcome userId,
      (authenticateUserState db nearby voiceOutcome pinOutcome userId).2 = db) := by
  constructor
  · intro devices location
    have h := evaluateTrustLevel_mem devices location
    simp only [List.mem_cons, List.not_mem_nil, or_false] at h
    rcases h with h | h | h | h <;> rw [h] <;> rfl
  · intro db nearby voiceOutcome pinOutcome userId
    unfold authenticateUserState
    split
    · rfl
    · rename_i kv hfind
      unfold mapGetInsert
      split
      · dsimp only
        split_ifs <;> rfl
      · rename_i hnone
        rw [hfind] at hnone
        exact absurd hnone (by simp)

/-! ## Claim C4 -/

/-- Claim C4: for every user whose profile exists, `authenticateUser` follows
the outcome policy: voice success in a trusted environment (some trusted
device of the profile is nearby) succeeds via Voice with the
trusted-environment annotation; voice success alone succeeds via Voice; and
otherwise the result is the PIN-verification boolean via PIN.  Exactly one of
Voice and PIN is reported as the method of the attempt. -/
theorem authenticateUser_outcome (db : List (String × UserProfile)) (nearby : List String)
    (voiceOutcome pinOutcome : Bool) (userId : String) (profile : UserProfile)
    (h : lookupUser db userId = some profile) :
    (isTrustedEnvironment profile nearby = true
      ↔ ∃ d ∈ profile.trustedDevices, d ∈ nearby)
    ∧ (voiceOutcome = true → isTrustedEnvironment profile nearby = true →
      authenticateUser db nearby voiceOutcome pinOutcome userId
        = ⟨some ⟨true, "Voice", " (Trusted Environment)"⟩, true, false⟩)
    ∧ (voiceOutcome = true → isTrustedEnvironment profile nearby = false →
      authenticateUser db nearby voiceOutcome pinOutcome userId
        = ⟨some ⟨true, "Voice", ""⟩, true, false⟩)
    ∧ (voiceOutcome = false →
      authenticateUser db nearby voiceOutcome pinOutcome userId
        = ⟨some ⟨pinOutcome, "PIN", ""⟩, true, true⟩)
    ∧ (∃ r, (authenticateUser db nearby voiceOutcome pinOutcome userId).result = some r
        ∧ (r.authMethod = "Voice" ↔ voiceOutcome = true)
        ∧ (r.authMethod = "PIN" ↔ voiceOutcome = false)
        ∧ ¬(r.authMethod = "Voice" ∧ r.authMethod = "PIN")) := by
  obtain ⟨kv, hfind, hprof⟩ : ∃ kv, db.find? (fun kv => kv.1 == userId) = some kv
      ∧ kv.2 = profile := by
    unfold lookupUser at h
    cases hfind : db.find? (fun kv => kv.1 == userId) with
    | none => rw [hfind] at h; exact absurd h (by simp)
    | some kv =>
      rw [hfind] at h
      exact ⟨kv, rfl, by simpa using h⟩
  have hfetch : mapGetInsert db userId = (profile, db) := by
    unfold mapGetInsert
    rw [hfind]
    simp [hprof]
  refine ⟨by simp [isTrustedEnvironment, List.any_eq_true], ?_, ?_, ?_, ?_⟩
  · intro hv ht
    simp [authenticateUser, authenticateUserState, hfind, hfetch, hv, ht]
  · intro hv ht
    simp [authenticateUser, authenticateUserState, hfind, hfetch, hv, ht]
  · intro hv
    simp [authenticateUser, authenticateUserState, hfind, hfetch, hv]
  · cases hv : voiceOutcome with
    | true =>
      cases ht : isTrustedEnvironment profile nearby with
      | true =>
        exact ⟨⟨true, "Voice", " (Trusted Environment)"⟩,
          by simp [authenticateUser, authenticateUserState, hfind, hfetch, ht], by simp⟩
      | false =>
        exact ⟨⟨true, "Voice", ""⟩,
          by simp [authenticateUser, authenticateUserState, hfind, hfetch, ht], by simp⟩
    | false =>
      exact ⟨⟨pinOutcome, "PIN", ""⟩,
        by simp [authenticateUser, authenticateUserState, hfind, hfetch], by simp⟩

/-- Witness for claim C4: thabo authenticating with a successful voice draw
in the scanned environment, whose devices include thabo's trusted home_bt
and car_bt. -/
theorem authenticateUser_outcome_witness :
    authenticateUser initialUserDatabase scannedNearbyDevices true true "thabo"
      = ⟨some ⟨true, "Voice", " (Trusted Environment)"⟩, true, false⟩ :=
  (authenticateUser_outcome initialUserDatabase scannedNearbyDevices true true "thabo"
    ⟨"voice_hash_1234", "5678", ["home_bt", "car_bt"]⟩ rfl).2.1 rfl rfl

/-! ## Claim C5 -/

/-- Claim C5: for every user identifier absent from the profile table,
`authenticateUser` reports the not-found outcome, invokes neither the voice
check nor the PIN check, and leaves the user database unchanged. -/
theorem authenticateUser_notFound (db : List (String × UserProfile)) (nearby : List String)
    (voiceOutcome pinOutcome : Bool) (userId : String)
    (h : lookupUser db userId = none) :
    authenticateUserState db nearby voiceOutcome pinOutcome userId
      = (⟨none, false, false⟩, db) := by
  have hfind : db.find? (fun kv => kv.1 == userId) = none := by
    unfold lookupUser at h
    cases hfind : db.find? (fun kv => kv.1 == userId) with
    | none => rfl
    | some kv => rw [hfind] at h; exact absurd h (by simp)
  unfold authenticateUserState
  rw [hfind]

/-- Witness for claim C5 at the spec's example identifier unknown_user. -/
theorem authenticateUser_notFound_witness :
    authenticateUserState initialUserDatabase scannedNearbyDevices true true "unknown_user"
      = (⟨none, false, false⟩, initialUserDatabase) :=
  authenticateUser_notFound initialUserDatabase scannedNearbyDevices true true
    "unknown_user" rfl

/-! ## Dot product lemmas -/

/-- The accumulation loop of `computeSimilarity` computes the sum of
`a i * b i` over `i` below the shorter length. -/
theorem dotProduct_eq_sum (a b : List ℚ) :
    dotProduct a b
      = ∑ i ∈ Finset.range (min a.length b.length), a.getD i 0 * b.getD i 0 := by
  induction a generalizing b with
  | nil => simp [dotProduct]
  | cons x xs ih =>
    cases b with
    | nil => simp [dotProduct]
    | cons y ys =>
      rw [show dotProduct (x :: xs) (y :: ys) = x * y + dotProduct xs ys from rfl, ih ys,
        List.length_cons, List.length_cons, Nat.succ_min_succ, Finset.sum_range_succ']
      simp [add_comm]

/-- A dot product against an all-zero left vector vanishes. -/
theorem dotProduct_zero_left (a b : List ℚ) (h : ∀ x ∈ a, x = 0) :
    dotProduct a b = 0 := by
  induction a generalizing b with
  | nil => cases b <;> rfl
  | cons x xs ih =>
    cases b with
    | nil => rfl
    | cons y ys =>
      have hx : x = 0 := h x (by simp)
      rw [show dotProduct (x :: xs) (y :: ys) = x * y + dotProduct xs ys from rfl, hx,
        ih ys (fun z hz => h z (by simp [hz]))]
      ring

/-- The dot product of two equal-value constant vectors. -/
theorem dotProduct_replicate (n : Nat) (x y : ℚ) :
    dotProduct (List.replicate n x) (List.replicate n y) = n * (x * y) := by
  induction n with
  | zero => simp [dotProduct]
  | succ k ih =>
    simp only [List.replicate_succ]
    rw [show dotProduct (x :: List.replicate k x) (y :: List.replicate k y)
        = x * y + dotProduct (List.replicate k x) (List.replicate k y) from rfl, ih]
    push_cast
    ring

/-! ## Claim C7 -/

/-- Claim C7: `computeSimilarity a b` is the absolute value of the sum of
`a i * b i` over positions below the shorter length, divided by the shorter
length; for an identical non-empty vector of positive values it is
non-negative and equals the sum of squares over the length; and the
similarity of all-zero vectors is 0. -/
theorem computeSimilarity_spec (a b : List ℚ) :
    computeSimilarity a b
      = |∑ i ∈ Finset.range (min a.length b.length), a.getD i 0 * b.getD i 0|
        / (min a.length b.length : ℚ)
    ∧ (a ≠ [] → (∀ x ∈ a, 0 < x) →
        computeSimilarity a a
          = (∑ i ∈ Finset.range a.length, a.getD i 0 ^ 2) / (a.length : ℚ)
        ∧ 0 ≤ computeSimilarity a a)
    ∧ ((∀ x ∈ a, x = 0) → (∀ x ∈ b, x = 0) → computeSimilarity a b = 0) := by
  refine ⟨?_, ?_, ?_⟩
  · unfold computeSimilarity simDivisor
    rw [dotProduct_eq_sum, Nat.cast_min]
  · intro hne hpos
    constructor
    · unfold computeSimilarity simDivisor
      rw [dotProduct_eq_sum, Nat.min_self,
        abs_of_nonneg (Finset.sum_nonneg fun i _ => mul_self_nonneg (a.getD i 0))]
      congr 1
      exact Finset.sum_congr rfl fun i _ => (pow_two (a.getD i 0)).symm
    · exact div_nonneg (abs_nonneg _) (by positivity)
  · intro ha hb
    unfold computeSimilarity
    rw [dotProduct_zero_left a b ha]
    simp

/-- Witness for claim C7 at the identical positive vector (1, 2). -/
theorem computeSimilarity_spec_witness :
    computeSimilarity [(1 : ℚ), 2] [(1 : ℚ), 2]
      = (∑ i ∈ Finset.range (List.length [(1 : ℚ), 2]), List.getD [(1 : ℚ), 2] i 0 ^ 2)
        / (List.length [(1 : ℚ), 2] : ℚ)
    ∧ 0 ≤ computeSimilarity [(1 : ℚ), 2] [(1 : ℚ), 2] :=
  (computeSimilarity_spec [(1 : ℚ), 2] [(1 : ℚ), 2]).2.1 (by decide) (by decide)

/-! ## Claim C6 -/

/-- The scan of `matchKeywords` succeeds exactly when some model in the list
exceeds the threshold. -/
theorem matchKeywordsAux_eq_true_iff (features : List ℚ) (models : List (List ℚ)) :
    matchKeywordsAux features models = true
      ↔ ∃ model ∈ models, RESPONSE_THRESHOLD < computeSimilarity features model := by
  induction models with
  | nil => simp [matchKeywordsAux]
  | cons m rest ih =>
    by_cases h : RESPONSE_THRESHOLD < computeSimilarity features m
    · simp [matchKeywordsAux, h]
    · simp [matchKeywordsAux, h, ih]

/-- Claim C6: keyword matching returns true exactly when some keyword
model's similarity to the features strictly exceeds the 0.85 threshold; the
first model exceeding the threshold short-circuits the scan to true; if none
exceed it the result is false. -/
theorem matchKeywords_spec (features : List ℚ) :
    (matchKeywords features = true
      ↔ ∃ model ∈ keywordModels, RESPONSE_THRESHOLD < computeSimilarity features model)
    ∧ (∀ model rest, RESPONSE_THRESHOLD < computeSimilarity features model →
        matchKeywordsAux features (model :: rest) = true)
    ∧ ((∀ model ∈ keywordModels, ¬ RESPONSE_THRESHOLD < computeSimilarity features model) →
        matchKeywords features = false) := by
  refine ⟨matchKeywordsAux_eq_true_iff features keywordModels, ?_, ?_⟩
  · intro model rest h
    simp [matchKeywordsAux, h]
  · intro h
    rw [← Bool.not_eq_true, matchKeywords, matchKeywordsAux_eq_true_iff]
    push_neg
    exact fun model hm => le_of_not_lt (h model hm)

/-- Witness for claim C6: a constant feature vector of value 10 pushes the
first model's similarity to 1, above the threshold. -/
theorem matchKeywords_spec_witness :
    matchKeywords (List.replicate 256 (10 : ℚ)) = true :=
  (matchKeywords_spec (List.replicate 256 (10 : ℚ))).1.mpr
    ⟨List.replicate 256 (1 / 10), List.mem_cons_self _ _, by
      rw [show computeSimilarity (List.replicate 256 (10 : ℚ)) (List.replicate 256 (1 / 10))
          = |dotProduct (List.replicate 256 (10 : ℚ)) (List.replicate 256 (1 / 10))|
            / (simDivisor (List.replicate 256 (10 : ℚ)) (List.replicate 256 (1 / 10)) : ℚ)
        from rfl, dotProduct_replicate]
      norm_num [RESPONSE_THRESHOLD, simDivisor, List.length_replicate]⟩

/-! ## Claim C10 -/

/-- Claim C10 counterexample: the divisor of `computeSimilarity` is already
zero when only the first vector is empty and the second is a (non-empty)
keyword model, so divisor zero does not require both vectors to be empty. -/
theorem simDivisor_zero_counterexample :
    simDivisor [] (List.replicate 256 (1 / 10)) = 0
    ∧ List.replicate 256 ((1 : ℚ) / 10) ≠ []
    ∧ List.replicate 256 ((1 : ℚ) / 10) ∈ keywordModels := by
  refine ⟨?_, ?_, List.mem_cons_self _ _⟩
  · unfold simDivisor
    rw [List.length_nil, List.length_replicate]
    omega
  · rw [Ne, List.replicate_eq_nil_iff]
    norm_num

/-- Claim C10 (amended): every keyword model has length exactly 256, so for
every non-empty feature vector the divisor used in each call made from
`matchKeywords` is positive and the division is well-defined; in general the
divisor is zero exactly when at least one of the two vectors is empty. -/
theorem keywordModels_simDivisor_spec (features : List ℚ) (hf : features ≠ []) :
    (∀ model ∈ keywordModels, model.length = 256)
    ∧ (∀ model ∈ keywordModels, 0 < simDivisor features model)
    ∧ (∀ a b : List ℚ, simDivisor a b = 0 ↔ a = [] ∨ b = []) := by
  have hlen : ∀ model ∈ keywordModels, model.length = 256 := by
    intro m hm
    simp only [keywordModels, List.mem_cons, List.not_mem_nil, or_false] at hm
    rcases hm with rfl | rfl | rfl <;> exact List.length_replicate _ _
  refine ⟨hlen, ?_, ?_⟩
  · intro m hm
    have h1 : 0 < features.length := List.length_pos.mpr hf
    have h2 : 0 < m.length := by
      rw [hlen m hm]
      norm_num
    exact lt_min_iff.mpr ⟨h1, h2⟩
  · intro a b
    simp [simDivisor, Nat.min_eq_zero_iff, List.length_eq_zero]

/-- Witness for the amended claim C10 at the one-element feature vector. -/
theorem keywordModels_simDivisor_spec_witness :
    (∀ model ∈ keywordModels, model.length = 256)
    ∧ (∀ model ∈ keywordModels, 0 < simDivisor [(1 : ℚ)] model)
    ∧ (∀ a b : List ℚ, simDivisor a b = 0 ↔ a = [] ∨ b = []) :=
  keywordModels_simDivisor_spec [(1 : ℚ)] (by decide)
